import Mathlib

/-!
Shallow embedding of the OPNet NFT marketplace contract
(`src/examples/good/NFTMarketplace.ts`) and proofs about it.

Modelling conventions:
* `u256` values (ids, prices, amounts, bps, flags) are `Nat`; overflow is
  explicit in `SafeMath_add`, which reverts when the mathematical sum
  reaches `2 ^ 256`, matching the runtime's checked addition.
* `Address` values are `Nat` (their 32-byte big-endian integer value);
  the null address is `0`, so `addr.isZero()` becomes `addr = 0`, and the
  `addressToU256` / `u256ToAddress` round trip is the identity.
* The persistent key-value stores (`StoredMapU256`, `AddressMemoryMap`)
  are total functions `Nat → Nat` defaulting to `0`, matching the
  zero-initialised storage of the runtime; `StoredU256` / `StoredAddress`
  are plain `Nat` fields.
* Cross-contract calls (`Blockchain.call`) are modelled by a
  `RemoteOracle`: `ownerOf` and `isApprovedForAll` return `none` when the
  call fails and `some` of the decoded response otherwise;
  `safeTransferFrom` returns the call's success flag (its response data
  is never read by the contract).
* A `Revert` aborts the current method.  Per the storage model (writes
  are immediately durable within the execution, there is no transactional
  rollback inside this core), every operation returns
  `Except Err α × MarketState`: the state component is the storage as it
  stands when the operation returns or reverts.
* Event emission appends to an `events` log in the state.
-/

namespace NFTMarketplace

/-- `2 ^ 256`, the number of `u256` values; sums reaching it overflow. -/
def U256LIMIT : Nat := 2 ^ 256

/-- A `Revert(msg)` thrown by the contract. -/
inductive Err where
  | revert (msg : String)
deriving DecidableEq, Repr

/-- A `u256 → u256` persistent map (`StoredMapU256` / `AddressMemoryMap`),
zero-initialised. -/
abbrev MapU256 := Nat → Nat

/-- `map.set(k, v)` on a persistent map. -/
def mapSet (m : MapU256) (k v : Nat) : MapU256 :=
  fun x => if x = k then v else m x

/-- The zero-initialised map of fresh storage. -/
def mapEmpty : MapU256 := fun _ => 0

/-- The seven domain events of `events.ts`, with exactly the fields their
constructors serialise. -/
inductive Event where
  | listingCreated (listingId collection tokenId seller price : Nat)
  | listingCancelled (listingId : Nat)
  | listingSold (listingId buyer price : Nat)
  | bidPlaced (bidId collection tokenId bidder amount : Nat)
  | bidCancelled (bidId : Nat)
  | bidAccepted (bidId seller : Nat)
  | collectionRegistered (collection royaltyBps : Nat)
deriving DecidableEq, Repr

/-- The contract's storage, plus the two ambient identities it consults
(`this.address` for approval checks, the deployer for `onlyDeployer`) and
the emitted-event log. -/
structure MarketState where
  deployer : Nat
  marketAddress : Nat
  nextListingId : Nat
  listingCollectionMap : MapU256
  listingTokenIdMap : MapU256
  listingSellerMap : MapU256
  listingPriceMap : MapU256
  listingActiveMap : MapU256
  nextBidId : Nat
  bidCollectionMap : MapU256
  bidTokenIdMap : MapU256
  bidBidderMap : MapU256
  bidAmountMap : MapU256
  bidActiveMap : MapU256
  collectionRoyaltyBpsMap : MapU256
  collectionRoyaltyRecipientMap : MapU256
  collectionRegisteredMap : MapU256
  platformFeeBps : Nat
  platformFeeRecipient : Nat
  totalVolume : Nat
  totalListings : Nat
  events : List Event

/-- `MAX_ROYALTY_BPS` (10%). -/
def MAX_ROYALTY_BPS : Nat := 1000

/-- `MAX_PLATFORM_FEE_BPS` (5%). -/
def MAX_PLATFORM_FEE_BPS : Nat := 500

/-- `ACTIVE = u256.One`. -/
def ACTIVE : Nat := 1

/-- `INACTIVE = u256.Zero`. -/
def INACTIVE : Nat := 0

/-- `SafeMath.add` of the runtime: checked `u256` addition, reverting on
overflow instead of wrapping or saturating. -/
def SafeMath_add (a b : Nat) : Except Err Nat :=
  if a + b < U256LIMIT then .ok (a + b)
  else .error (.revert "SafeMath: addition overflow")

/-- The behaviour of the external OP721 collection contracts, as observed
through `Blockchain.call`.  `none` models a failed call
(`result.success = false`); `some` carries the decoded response. -/
structure RemoteOracle where
  ownerOf : Nat → Nat → Option Nat
  isApprovedForAll : Nat → Nat → Nat → Option Bool
  safeTransferFrom : Nat → Nat → Nat → Nat → Bool

/-- Fresh zero-initialised storage, before `onDeployment` runs. -/
def emptyStorage (deployer marketAddress : Nat) : MarketState where
  deployer := deployer
  marketAddress := marketAddress
  nextListingId := 0
  listingCollectionMap := mapEmpty
  listingTokenIdMap := mapEmpty
  listingSellerMap := mapEmpty
  listingPriceMap := mapEmpty
  listingActiveMap := mapEmpty
  nextBidId := 0
  bidCollectionMap := mapEmpty
  bidTokenIdMap := mapEmpty
  bidBidderMap := mapEmpty
  bidAmountMap := mapEmpty
  bidActiveMap := mapEmpty
  collectionRoyaltyBpsMap := mapEmpty
  collectionRoyaltyRecipientMap := mapEmpty
  collectionRegisteredMap := mapEmpty
  platformFeeBps := 0
  platformFeeRecipient := 0
  totalVolume := 0
  totalListings := 0
  events := []

/-- `onDeployment`: validates and stores the fee recipient and fee bps,
then starts both id counters at 1. -/
def onDeployment (feeRecipient feeBps : Nat) (s : MarketState) :
    Except Err Unit × MarketState :=
  if feeRecipient = 0 then (.error (.revert "Invalid fee recipient"), s)
  else if MAX_PLATFORM_FEE_BPS < feeBps then
    (.error (.revert "Fee exceeds maximum"), s)
  else
    (.ok (), { s with
      platformFeeRecipient := feeRecipient
      platformFeeBps := feeBps
      nextListingId := 1
      nextBidId := 1 })

/-- `verifyOwnership`: calls `ownerOf(tokenId)` on the collection and
requires the answer to be `expectedOwner`. -/
def verifyOwnership (o : RemoteOracle) (collection tokenId expectedOwner : Nat) :
    Except Err Unit :=
  match o.ownerOf collection tokenId with
  | none => .error (.revert "ownerOf call failed")
  | some owner =>
    if owner = expectedOwner then .ok ()
    else .error (.revert "Caller is not the token owner")

/-- `verifyApproval`: calls `isApprovedForAll(owner, marketplace)` on the
collection and requires a positive answer. -/
def verifyApproval (o : RemoteOracle) (s : MarketState) (collection owner : Nat) :
    Except Err Unit :=
  match o.isApprovedForAll collection owner s.marketAddress with
  | none => .error (.revert "isApprovedForAll call failed")
  | some approved =>
    if approved then .ok ()
    else .error (.revert "Marketplace not approved for transfers")

/-- `executeNFTTransfer`: calls `safeTransferFrom(from, to, tokenId)` on
the collection and requires the call to succeed. -/
def executeNFTTransfer (o : RemoteOracle) (collection fromAddr toAddr tokenId : Nat) :
    Except Err Unit :=
  if o.safeTransferFrom collection fromAddr toAddr tokenId then .ok ()
  else .error (.revert "NFT transfer failed")

/-- `requireActiveListing`: `NotFound` when the id is `0` or at least
`nextListingId`, `Inactive` when the stored active flag is `INACTIVE`. -/
def requireActiveListing (s : MarketState) (listingId : Nat) : Except Err Unit :=
  if s.nextListingId ≤ listingId ∨ listingId = 0 then
    .error (.revert "Listing does not exist")
  else if s.listingActiveMap listingId = INACTIVE then
    .error (.revert "Listing is not active")
  else .ok ()

/-- `requireActiveBid`: same contract on the bid ledger. -/
def requireActiveBid (s : MarketState) (bidId : Nat) : Except Err Unit :=
  if s.nextBidId ≤ bidId ∨ bidId = 0 then
    .error (.revert "Bid does not exist")
  else if s.bidActiveMap bidId = INACTIVE then
    .error (.revert "Bid is not active")
  else .ok ()

/-- `listNFT`: argument checks, remote ownership and approval checks,
then id allocation, field persistence, listing-count increment, event. -/
def listNFT (o : RemoteOracle) (sender collectionAddr tokenId price : Nat)
    (s : MarketState) : Except Err Nat × MarketState :=
  if collectionAddr = 0 then (.error (.revert "Invalid collection address"), s)
  else if price = 0 then (.error (.revert "Price must be greater than zero"), s)
  else match verifyOwnership o collectionAddr tokenId sender with
  | .error e => (.error e, s)
  | .ok _ =>
    match verifyApproval o s collectionAddr sender with
    | .error e => (.error e, s)
    | .ok _ =>
      let listingId := s.nextListingId
      match SafeMath_add listingId 1 with
      | .error e => (.error e, s)
      | .ok nextId =>
        let s1 := { s with
          nextListingId := nextId
          listingCollectionMap := mapSet s.listingCollectionMap listingId collectionAddr
          listingTokenIdMap := mapSet s.listingTokenIdMap listingId tokenId
          listingSellerMap := mapSet s.listingSellerMap listingId sender
          listingPriceMap := mapSet s.listingPriceMap listingId price
          listingActiveMap := mapSet s.listingActiveMap listingId ACTIVE }
        match SafeMath_add s1.totalListings 1 with
        | .error e => (.error e, s1)
        | .ok tl =>
          (.ok listingId, { s1 with
            totalListings := tl
            events := s1.events ++
              [Event.listingCreated listingId collectionAddr tokenId sender price] })

/-- `cancelListing`: requires an active listing and `sender = seller`,
deactivates it and emits `ListingCancelled`. -/
def cancelListing (sender listingId : Nat) (s : MarketState) :
    Except Err Bool × MarketState :=
  match requireActiveListing s listingId with
  | .error e => (.error e, s)
  | .ok _ =>
    let seller := s.listingSellerMap listingId
    if sender ≠ seller then (.error (.revert "Only seller can cancel"), s)
    else
      (.ok true, { s with
        listingActiveMap := mapSet s.listingActiveMap listingId INACTIVE
        events := s.events ++ [Event.listingCancelled listingId] })

/-- `buyNFT`: requires an active listing and `buyer ≠ seller`, deactivates
the listing and records the volume BEFORE issuing the transfer call, then
emits `ListingSold` only if the transfer succeeded. -/
def buyNFT (o : RemoteOracle) (sender listingId : Nat) (s : MarketState) :
    Except Err Bool × MarketState :=
  match requireActiveListing s listingId with
  | .error e => (.error e, s)
  | .ok _ =>
    let collectionAddr := s.listingCollectionMap listingId
    let tokenId := s.listingTokenIdMap listingId
    let seller := s.listingSellerMap listingId
    let price := s.listingPriceMap listingId
    if sender = seller then (.error (.revert "Buyer cannot be seller"), s)
    else
      let s1 := { s with listingActiveMap := mapSet s.listingActiveMap listingId INACTIVE }
      match SafeMath_add s1.totalVolume price with
      | .error e => (.error e, s1)
      | .ok v =>
        let s2 := { s1 with totalVolume := v }
        match executeNFTTransfer o collectionAddr seller sender tokenId with
        | .error e => (.error e, s2)
        | .ok _ =>
          (.ok true, { s2 with events := s2.events ++ [Event.listingSold listingId sender price] })

/-- `placeBid`: argument checks (no ownership check), bid id allocation,
field persistence, `BidPlaced` event. -/
def placeBid (sender collectionAddr tokenId bidAmountSatoshis : Nat)
    (s : MarketState) : Except Err Nat × MarketState :=
  if collectionAddr = 0 then (.error (.revert "Invalid collection address"), s)
  else if bidAmountSatoshis = 0 then
    (.error (.revert "Bid amount must be greater than zero"), s)
  else
    let bidId := s.nextBidId
    match SafeMath_add bidId 1 with
    | .error e => (.error e, s)
    | .ok nextId =>
      (.ok bidId, { s with
        nextBidId := nextId
        bidCollectionMap := mapSet s.bidCollectionMap bidId collectionAddr
        bidTokenIdMap := mapSet s.bidTokenIdMap bidId tokenId
        bidBidderMap := mapSet s.bidBidderMap bidId sender
        bidAmountMap := mapSet s.bidAmountMap bidId bidAmountSatoshis
        bidActiveMap := mapSet s.bidActiveMap bidId ACTIVE
        events := s.events ++
          [Event.bidPlaced bidId collectionAddr tokenId sender bidAmountSatoshis] })

/-- `cancelBid`: requires an active bid and `sender = bidder`, deactivates
it and emits `BidCancelled`. -/
def cancelBid (sender bidId : Nat) (s : MarketState) :
    Except Err Bool × MarketState :=
  match requireActiveBid s bidId with
  | .error e => (.error e, s)
  | .ok _ =>
    let bidder := s.bidBidderMap bidId
    if sender ≠ bidder then (.error (.revert "Only bidder can cancel"), s)
    else
      (.ok true, { s with
        bidActiveMap := mapSet s.bidActiveMap bidId INACTIVE
        events := s.events ++ [Event.bidCancelled bidId] })

/-- `acceptBid`: requires an active bid and remote proof that the caller
owns the token, deactivates the bid and records the volume BEFORE the
transfer call, then emits `BidAccepted`. -/
def acceptBid (o : RemoteOracle) (sender bidId : Nat) (s : MarketState) :
    Except Err Bool × MarketState :=
  match requireActiveBid s bidId with
  | .error e => (.error e, s)
  | .ok _ =>
    let collectionAddr := s.bidCollectionMap bidId
    let tokenId := s.bidTokenIdMap bidId
    let bidder := s.bidBidderMap bidId
    let amount := s.bidAmountMap bidId
    match verifyOwnership o collectionAddr tokenId sender with
    | .error e => (.error e, s)
    | .ok _ =>
      let s1 := { s with bidActiveMap := mapSet s.bidActiveMap bidId INACTIVE }
      match SafeMath_add s1.totalVolume amount with
      | .error e => (.error e, s1)
      | .ok v =>
        let s2 := { s1 with totalVolume := v }
        match executeNFTTransfer o collectionAddr sender bidder tokenId with
        | .error e => (.error e, s2)
        | .ok _ =>
          (.ok true, { s2 with events := s2.events ++ [Event.bidAccepted bidId sender] })

/-- `registerCollection`: deployer-only upsert of a collection's royalty
terms, bounds-checked, emitting `CollectionRegistered`. -/
def registerCollection (sender collectionAddr royaltyBps royaltyRecipient : Nat)
    (s : MarketState) : Except Err Bool × MarketState :=
  if sender ≠ s.deployer then (.error (.revert "Only deployer"), s)
  else if collectionAddr = 0 then (.error (.revert "Invalid collection address"), s)
  else if MAX_ROYALTY_BPS < royaltyBps then
    (.error (.revert "Royalty exceeds maximum 10%"), s)
  else if royaltyRecipient = 0 then (.error (.revert "Invalid royalty recipient"), s)
  else
    (.ok true, { s with
      collectionRegisteredMap := mapSet s.collectionRegisteredMap collectionAddr 1
      collectionRoyaltyBpsMap := mapSet s.collectionRoyaltyBpsMap collectionAddr royaltyBps
      collectionRoyaltyRecipientMap :=
        mapSet s.collectionRoyaltyRecipientMap collectionAddr royaltyRecipient
      events := s.events ++ [Event.collectionRegistered collectionAddr royaltyBps] })

/-- `setPlatformFee`: deployer-only, bounded to `MAX_PLATFORM_FEE_BPS`.
The source emits no event here. -/
def setPlatformFee (sender newFeeBps : Nat) (s : MarketState) :
    Except Err Bool × MarketState :=
  if sender ≠ s.deployer then (.error (.revert "Only deployer"), s)
  else if MAX_PLATFORM_FEE_BPS < newFeeBps then
    (.error (.revert "Fee exceeds maximum 5%"), s)
  else (.ok true, { s with platformFeeBps := newFeeBps })

/-- `setPlatformFeeRecipient`: deployer-only, non-null recipient.  The
source emits no event here. -/
def setPlatformFeeRecipient (sender newRecipient : Nat) (s : MarketState) :
    Except Err Bool × MarketState :=
  if sender ≠ s.deployer then (.error (.revert "Only deployer"), s)
  else if newRecipient = 0 then (.error (.revert "Invalid recipient address"), s)
  else (.ok true, { s with platformFeeRecipient := newRecipient })

/-- `updateRoyalty`: deployer-only update of an already-registered
collection's royalty terms.  The source emits no event here. -/
def updateRoyalty (sender collectionAddr newBps newRecipient : Nat)
    (s : MarketState) : Except Err Bool × MarketState :=
  if sender ≠ s.deployer then (.error (.revert "Only deployer"), s)
  else if s.collectionRegisteredMap collectionAddr = 0 then
    (.error (.revert "Collection not registered"), s)
  else if MAX_ROYALTY_BPS < newBps then
    (.error (.revert "Royalty exceeds maximum 10%"), s)
  else if newRecipient = 0 then (.error (.revert "Invalid royalty recipient"), s)
  else
    (.ok true, { s with
      collectionRoyaltyBpsMap := mapSet s.collectionRoyaltyBpsMap collectionAddr newBps
      collectionRoyaltyRecipientMap :=
        mapSet s.collectionRoyaltyRecipientMap collectionAddr newRecipient })

/-- `getListing`: reads the five listing fields unconditionally — there is
no id-range or active check, and no revert on this path. -/
def getListing (listingId : Nat) (s : MarketState) :
    Except Err (Nat × Nat × Nat × Nat × Nat) × MarketState :=
  (.ok (s.listingCollectionMap listingId, s.listingTokenIdMap listingId,
        s.listingSellerMap listingId, s.listingPriceMap listingId,
        s.listingActiveMap listingId), s)

/-- `getBid`: reads the five bid fields unconditionally. -/
def getBid (bidId : Nat) (s : MarketState) :
    Except Err (Nat × Nat × Nat × Nat × Nat) × MarketState :=
  (.ok (s.bidCollectionMap bidId, s.bidTokenIdMap bidId,
        s.bidBidderMap bidId, s.bidAmountMap bidId,
        s.bidActiveMap bidId), s)

/-- `getCollectionInfo`: registered flag, royalty bps, royalty recipient. -/
def getCollectionInfo (collectionAddr : Nat) (s : MarketState) :
    Except Err (Nat × Nat × Nat) × MarketState :=
  (.ok (s.collectionRegisteredMap collectionAddr,
        s.collectionRoyaltyBpsMap collectionAddr,
        s.collectionRoyaltyRecipientMap collectionAddr), s)

/-- `getPlatformInfo`: fee bps, fee recipient, total volume, total
listings. -/
def getPlatformInfo (s : MarketState) :
    Except Err (Nat × Nat × Nat × Nat) × MarketState :=
  (.ok (s.platformFeeBps, s.platformFeeRecipient, s.totalVolume, s.totalListings), s)

/-- One dispatched public call, as routed by `execute`. -/
inductive Op where
  | listNFT (sender collection tokenId price : Nat)
  | cancelListing (sender listingId : Nat)
  | buyNFT (sender listingId : Nat)
  | placeBid (sender collection tokenId amount : Nat)
  | cancelBid (sender bidId : Nat)
  | acceptBid (sender bidId : Nat)
  | registerCollection (sender collection royaltyBps royaltyRecipient : Nat)
  | setPlatformFee (sender newFeeBps : Nat)
  | setPlatformFeeRecipient (sender newRecipient : Nat)
  | updateRoyalty (sender collection newBps newRecipient : Nat)
  | getListing (listingId : Nat)
  | getBid (bidId : Nat)
  | getCollectionInfo (collection : Nat)
  | getPlatformInfo

/-- The `execute` dispatcher, with the returned bytes abstracted away:
only success/failure and the post-state are kept. -/
def execute (o : RemoteOracle) (op : Op) (s : MarketState) :
    Except Err Unit × MarketState :=
  match op with
  | .listNFT sender c t p =>
    let r := listNFT o sender c t p s; (r.1.map fun _ => (), r.2)
  | .cancelListing sender id =>
    let r := cancelListing sender id s; (r.1.map fun _ => (), r.2)
  | .buyNFT sender id =>
    let r := buyNFT o sender id s; (r.1.map fun _ => (), r.2)
  | .placeBid sender c t a =>
    let r := placeBid sender c t a s; (r.1.map fun _ => (), r.2)
  | .cancelBid sender id =>
    let r := cancelBid sender id s; (r.1.map fun _ => (), r.2)
  | .acceptBid sender id =>
    let r := acceptBid o sender id s; (r.1.map fun _ => (), r.2)
  | .registerCollection sender c bps rec =>
    let r := registerCollection sender c bps rec s; (r.1.map fun _ => (), r.2)
  | .setPlatformFee sender bps =>
    let r := setPlatformFee sender bps s; (r.1.map fun _ => (), r.2)
  | .setPlatformFeeRecipient sender rec =>
    let r := setPlatformFeeRecipient sender rec s; (r.1.map fun _ => (), r.2)
  | .updateRoyalty sender c bps rec =>
    let r := updateRoyalty sender c bps rec s; (r.1.map fun _ => (), r.2)
  | .getListing id =>
    let r := getListing id s; (r.1.map fun _ => (), r.2)
  | .getBid id =>
    let r := getBid id s; (r.1.map fun _ => (), r.2)
  | .getCollectionInfo c =>
    let r := getCollectionInfo c s; (r.1.map fun _ => (), r.2)
  | .getPlatformInfo =>
    let r := getPlatformInfo s; (r.1.map fun _ => (), r.2)

/-- `true` exactly when the call reverted. -/
def isErr {α : Type} : Except Err α → Bool
  | .error _ => true
  | .ok _ => false

/-! ### Helper lemmas -/

theorem SafeMath_add_eq_ok (a b c : Nat) :
    SafeMath_add a b = .ok c ↔ a + b < U256LIMIT ∧ c = a + b := by
  unfold SafeMath_add
  split <;> simp_all [eq_comm]

theorem SafeMath_add_eq_error (a b : Nat) (e : Err) :
    SafeMath_add a b = .error e ↔
      U256LIMIT ≤ a + b ∧ e = .revert "SafeMath: addition overflow" := by
  unfold SafeMath_add
  split <;> simp_all [eq_comm]

theorem requireActiveListing_eq_ok (s : MarketState) (lid : Nat) :
    requireActiveListing s lid = .ok () ↔
      lid < s.nextListingId ∧ lid ≠ 0 ∧ s.listingActiveMap lid ≠ INACTIVE := by
  unfold requireActiveListing
  split
  · simp_all
    omega
  · split <;> simp_all

theorem requireActiveBid_eq_ok (s : MarketState) (bid : Nat) :
    requireActiveBid s bid = .ok () ↔
      bid < s.nextBidId ∧ bid ≠ 0 ∧ s.bidActiveMap bid ≠ INACTIVE := by
  unfold requireActiveBid
  split
  · simp_all
    omega
  · split <;> simp_all

/-! ### Concrete states and oracles used by the witnesses -/

/-- A cooperative collection: every token is owned by `ownerAddr`, every
operator is approved, every transfer succeeds. -/
def demoOracle (ownerAddr : Nat) : RemoteOracle where
  ownerOf := fun _ _ => some ownerAddr
  isApprovedForAll := fun _ _ _ => some true
  safeTransferFrom := fun _ _ _ _ => true

/-- Like `demoOracle`, but every `safeTransferFrom` call fails. -/
def failTransferOracle (ownerAddr : Nat) : RemoteOracle where
  ownerOf := fun _ _ => some ownerAddr
  isApprovedForAll := fun _ _ _ => some true
  safeTransferFrom := fun _ _ _ _ => false

/-- The state right after deployment with deployer `9`, marketplace
address `5`, fee recipient `77`, fee `250` bps. -/
def deployedState : MarketState :=
  (onDeployment 77 250 (emptyStorage 9 5)).2

/-- `deployedState` after seller `3` lists token `7` of collection `11`
at price `1000` (listing id `1`). -/
def listedState : MarketState :=
  (listNFT (demoOracle 3) 3 11 7 1000 deployedState).2

/-- `deployedState` after bidder `4` bids `800` on token `7` of
collection `11` (bid id `1`). -/
def bidState : MarketState :=
  (placeBid 4 11 7 800 deployedState).2

/-! ### C3: listNFT id allocation -/

/-- Claim C3: every successful `listNFT` call returns the pre-call value
of the listing counter, leaves the counter at that value plus one, and
increases `totalListings` by exactly one. -/
theorem listNFT_allocates_sequentially (o : RemoteOracle)
    (sender c t p : Nat) (s : MarketState) (id : Nat) (s' : MarketState)
    (h : listNFT o sender c t p s = (.ok id, s')) :
    id = s.nextListingId ∧ s'.nextListingId = s.nextListingId + 1 ∧
      s'.totalListings = s.totalListings + 1 := by
  simp only [listNFT] at h
  split at h
  · simp_all
  split at h
  · simp_all
  split at h
  · simp_all
  split at h
  · simp_all
  split at h
  · simp_all
  split at h
  · simp_all
  simp only [Prod.mk.injEq, Except.ok.injEq] at h
  obtain ⟨rfl, rfl⟩ := h
  simp_all [SafeMath_add_eq_ok]

/-- Witness for C3: listing token `7` of collection `11` at price `1000`
in `deployedState` (listing counter `1`) returns id `1` and moves the
counter to `2` and `totalListings` to `1`. -/
theorem listNFT_allocates_sequentially_witness :
    1 = deployedState.nextListingId ∧
      listedState.nextListingId = deployedState.nextListingId + 1 ∧
      listedState.totalListings = deployedState.totalListings + 1 :=
  listNFT_allocates_sequentially (demoOracle 3) 3 11 7 1000 deployedState 1
    listedState rfl

/-! ### C7: buyNFT rejects self-purchase with no state change -/

/-- Claim C7: on an active listing whose recorded seller is the caller,
`buyNFT` reverts with the buyer-cannot-be-seller error and returns the
state completely unchanged (the listing stays active, `totalVolume`
untouched). -/
theorem buyNFT_self_purchase_rejected (o : RemoteOracle)
    (sender lid : Nat) (s : MarketState)
    (hact : requireActiveListing s lid = .ok ())
    (hsel : sender = s.listingSellerMap lid) :
    buyNFT o sender lid s = (.error (.revert "Buyer cannot be seller"), s) := by
  unfold buyNFT
  rw [hact]
  simp [hsel]

/-- Witness for C7: the seller `3` of listing `1` in `listedState`
attempting to buy it is rejected with the state unchanged. -/
theorem buyNFT_self_purchase_rejected_witness :
    requireActiveListing listedState 1 = .ok () ∧
      buyNFT (demoOracle 3) 3 1 listedState =
        (.error (.revert "Buyer cannot be seller"), listedState) :=
  ⟨rfl, buyNFT_self_purchase_rejected (demoOracle 3) 3 1 listedState rfl rfl⟩

/-! ### C8: listNFT verifies before mutating -/

/-- Claim C8: `listNFT` performs the remote ownership and approval checks
before any state mutation; whenever either check reverts (failed call or
negative answer), `listNFT` reverts with the post-call state identical to
the pre-call state — no listing recorded, no counter bump, `totalListings`
unchanged. -/
theorem listNFT_verifies_before_mutation (o : RemoteOracle)
    (sender c t p : Nat) (s : MarketState)
    (h : isErr (verifyOwnership o c t sender) = true ∨
      isErr (verifyApproval o s c sender) = true) :
    (listNFT o sender c t p s).2 = s ∧
      isErr (listNFT o sender c t p s).1 = true := by
  unfold listNFT
  repeat' split
  all_goals simp_all [isErr]

/-- Witness for C8: with an oracle whose `ownerOf` reports owner `99`,
caller `3` cannot list token `7`, and the state is unchanged. -/
theorem listNFT_verifies_before_mutation_witness :
    (listNFT (demoOracle 99) 3 11 7 1000 deployedState).2 = deployedState ∧
      isErr (listNFT (demoOracle 99) 3 11 7 1000 deployedState).1 = true :=
  listNFT_verifies_before_mutation (demoOracle 99) 3 11 7 1000 deployedState
    (Or.inl rfl)

/-! ### C10: buyNFT is oblivious to ownerOf / isApprovedForAll -/

/-- Claim C10: `buyNFT` issues no ownership or approval verification at
purchase time: any two oracle behaviours that agree on `safeTransferFrom`
make `buyNFT` produce the same result and post-state, whatever `ownerOf`
and `isApprovedForAll` would answer. -/
theorem buyNFT_ignores_ownership_oracle (o1 o2 : RemoteOracle)
    (sender lid : Nat) (s : MarketState)
    (h : ∀ c f t tok, o1.safeTransferFrom c f t tok = o2.safeTransferFrom c f t tok) :
    buyNFT o1 sender lid s = buyNFT o2 sender lid s := by
  unfold buyNFT executeNFTTransfer
  simp only [h]

/-- Witness for C10: an all-approving oracle and one that fails every
`ownerOf`/`isApprovedForAll` call but shares its transfer behaviour give
`buyNFT` identical outcomes. -/
theorem buyNFT_ignores_ownership_oracle_witness :
    buyNFT (demoOracle 3)
        4 1 listedState =
      buyNFT { ownerOf := fun _ _ => none, isApprovedForAll := fun _ _ _ => none,
               safeTransferFrom := fun _ _ _ _ => true }
        4 1 listedState :=
  buyNFT_ignores_ownership_oracle (demoOracle 3)
    { ownerOf := fun _ _ => none, isApprovedForAll := fun _ _ _ => none,
      safeTransferFrom := fun _ _ _ _ => true }
    4 1 listedState (fun _ _ _ _ => rfl)

/-! ### C1: buyNFT / acceptBid commit state before the transfer call -/

/-- Claim C1: in `buyNFT` and `acceptBid` the ledger deactivation and the
volume accounting are applied before the external transfer call; whenever
that transfer call fails, the whole operation reverts yet the listing/bid
is left deactivated and `totalVolume` left incremented by the settlement
price/amount. -/
theorem state_committed_before_failed_transfer :
    (∀ (o : RemoteOracle) (sender lid : Nat) (s : MarketState),
      requireActiveListing s lid = .ok () →
      sender ≠ s.listingSellerMap lid →
      s.totalVolume + s.listingPriceMap lid < U256LIMIT →
      o.safeTransferFrom (s.listingCollectionMap lid) (s.listingSellerMap lid) sender
          (s.listingTokenIdMap lid) = false →
      (buyNFT o sender lid s).1 = .error (.revert "NFT transfer failed") ∧
        (buyNFT o sender lid s).2.listingActiveMap lid = INACTIVE ∧
        (buyNFT o sender lid s).2.totalVolume = s.totalVolume + s.listingPriceMap lid) ∧
    (∀ (o : RemoteOracle) (sender bid : Nat) (s : MarketState),
      requireActiveBid s bid = .ok () →
      verifyOwnership o (s.bidCollectionMap bid) (s.bidTokenIdMap bid) sender = .ok () →
      s.totalVolume + s.bidAmountMap bid < U256LIMIT →
      o.safeTransferFrom (s.bidCollectionMap bid) sender (s.bidBidderMap bid)
          (s.bidTokenIdMap bid) = false →
      (acceptBid o sender bid s).1 = .error (.revert "NFT transfer failed") ∧
        (acceptBid o sender bid s).2.bidActiveMap bid = INACTIVE ∧
        (acceptBid o sender bid s).2.totalVolume = s.totalVolume + s.bidAmountMap bid) := by
  constructor
  · intro o sender lid s hact hne hov htr
    unfold buyNFT
    rw [hact]
    simp [hne, SafeMath_add, hov, executeNFTTransfer, htr, mapSet]
  · intro o sender bid s hact hown hov htr
    unfold acceptBid
    rw [hact]
    simp only []
    rw [hown]
    simp [SafeMath_add, hov, executeNFTTransfer, htr, mapSet]

/-- Witness for C1: with an oracle whose transfer call fails, buyer `4`
purchasing listing `1` of `listedState` reverts but leaves the listing
inactive and the volume at `1000`; acceptor `3` accepting bid `1` of
`bidState` reverts but leaves the bid inactive and the volume at `800`. -/
theorem state_committed_before_failed_transfer_witness :
    ((buyNFT (failTransferOracle 3) 4 1 listedState).1 =
        .error (.revert "NFT transfer failed") ∧
      (buyNFT (failTransferOracle 3) 4 1 listedState).2.listingActiveMap 1 = INACTIVE ∧
      (buyNFT (failTransferOracle 3) 4 1 listedState).2.totalVolume =
        listedState.totalVolume + listedState.listingPriceMap 1) ∧
    ((acceptBid (failTransferOracle 3) 3 1 bidState).1 =
        .error (.revert "NFT transfer failed") ∧
      (acceptBid (failTransferOracle 3) 3 1 bidState).2.bidActiveMap 1 = INACTIVE ∧
      (acceptBid (failTransferOracle 3) 3 1 bidState).2.totalVolume =
        bidState.totalVolume + bidState.bidAmountMap 1) :=
  ⟨state_committed_before_failed_transfer.1 (failTransferOracle 3) 4 1 listedState
      rfl (by decide) (by decide) rfl,
    state_committed_before_failed_transfer.2 (failTransferOracle 3) 3 1 bidState
      rfl rfl (by decide) rfl⟩

/-! ### C2: getListing on out-of-range ids (corrected) -/

/-- Counterexample to claim C2 as stated: in the freshly deployed state
(`nextListingId = 1`), `getListing` with id `0` and with id `5 ≥ 1`
succeeds and returns the (all-zero) field tuple instead of failing with
`NotFound`. -/
theorem getListing_invalid_id_counterexample :
    deployedState.nextListingId = 1 ∧
      (getListing 0 deployedState).1 = .ok (0, 0, 0, 0, 0) ∧
      (getListing 5 deployedState).1 = .ok (0, 0, 0, 0, 0) :=
  ⟨rfl, rfl, rfl⟩

/-- Amended claim C2: `getListing` never fails — for every state and id
(including id `0` and id `≥ nextListingId`) it returns the raw stored
field tuple and leaves the state untouched; it is `requireActiveListing`,
used by the mutating operations, that fails with the `NotFound` error for
id `0` or id `≥ nextListingId`. -/
theorem getListing_total_requireActive_notfound :
    (∀ (lid : Nat) (s : MarketState),
      getListing lid s =
        (.ok (s.listingCollectionMap lid, s.listingTokenIdMap lid,
          s.listingSellerMap lid, s.listingPriceMap lid,
          s.listingActiveMap lid), s)) ∧
    (∀ (lid : Nat) (s : MarketState), s.nextListingId ≤ lid ∨ lid = 0 →
      requireActiveListing s lid = .error (.revert "Listing does not exist")) := by
  constructor
  · intro lid s
    rfl
  · intro lid s h
    unfold requireActiveListing
    rw [if_pos h]

/-- Witness for the amended C2: id `0` and id `5` in `deployedState`. -/
theorem getListing_total_requireActive_notfound_witness :
    getListing 5 deployedState =
      (.ok (deployedState.listingCollectionMap 5, deployedState.listingTokenIdMap 5,
        deployedState.listingSellerMap 5, deployedState.listingPriceMap 5,
        deployedState.listingActiveMap 5), deployedState) ∧
      requireActiveListing deployedState 0 =
        .error (.revert "Listing does not exist") ∧
      requireActiveListing deployedState 5 =
        .error (.revert "Listing does not exist") :=
  ⟨getListing_total_requireActive_notfound.1 5 deployedState,
    getListing_total_requireActive_notfound.2 0 deployedState (Or.inr rfl),
    getListing_total_requireActive_notfound.2 5 deployedState (Or.inl (by decide))⟩

/-! ### C5: events per successful mutating call (corrected) -/

/-- Counterexample to claim C5 as stated: deployer `9` successfully calls
`setPlatformFee` on `deployedState` — the call mutates the fee from `250`
to `100` — yet the event log stays empty: no domain event is emitted, not
exactly one. -/
theorem setPlatformFee_emits_no_event_counterexample :
    (setPlatformFee 9 100 deployedState).1 = .ok true ∧
      (setPlatformFee 9 100 deployedState).2.platformFeeBps = 100 ∧
      deployedState.platformFeeBps = 250 ∧
      (setPlatformFee 9 100 deployedState).2.events = [] :=
  ⟨rfl, rfl, rfl, rfl⟩

/-- Amended claim C5: each successful `listNFT`, `cancelListing`,
`buyNFT`, `placeBid`, `cancelBid`, `acceptBid`, `registerCollection` call
appends exactly one domain event carrying the fields of section 4.5,
while successful `setPlatformFee`, `setPlatformFeeRecipient` and
`updateRoyalty` calls emit no event at all. -/
theorem events_per_successful_call :
    (∀ (o : RemoteOracle) (sender c t p : Nat) (s : MarketState) (id : Nat)
        (s' : MarketState), listNFT o sender c t p s = (.ok id, s') →
      s'.events = s.events ++ [Event.listingCreated id c t sender p]) ∧
    (∀ (sender lid : Nat) (s : MarketState) (b : Bool) (s' : MarketState),
        cancelListing sender lid s = (.ok b, s') →
      s'.events = s.events ++ [Event.listingCancelled lid]) ∧
    (∀ (o : RemoteOracle) (sender lid : Nat) (s : MarketState) (b : Bool)
        (s' : MarketState), buyNFT o sender lid s = (.ok b, s') →
      s'.events = s.events ++ [Event.listingSold lid sender (s.listingPriceMap lid)]) ∧
    (∀ (sender c t a : Nat) (s : MarketState) (id : Nat) (s' : MarketState),
        placeBid sender c t a s = (.ok id, s') →
      s'.events = s.events ++ [Event.bidPlaced id c t sender a]) ∧
    (∀ (sender bid : Nat) (s : MarketState) (b : Bool) (s' : MarketState),
        cancelBid sender bid s = (.ok b, s') →
      s'.events = s.events ++ [Event.bidCancelled bid]) ∧
    (∀ (o : RemoteOracle) (sender bid : Nat) (s : MarketState) (b : Bool)
        (s' : MarketState), acceptBid o sender bid s = (.ok b, s') →
      s'.events = s.events ++ [Event.bidAccepted bid sender]) ∧
    (∀ (sender c bps rec : Nat) (s : MarketState) (b : Bool) (s' : MarketState),
        registerCollection sender c bps rec s = (.ok b, s') →
      s'.events = s.events ++ [Event.collectionRegistered c bps]) ∧
    (∀ (sender bps : Nat) (s : MarketState) (b : Bool) (s' : MarketState),
        setPlatformFee sender bps s = (.ok b, s') → s'.events = s.events) ∧
    (∀ (sender rec : Nat) (s : MarketState) (b : Bool) (s' : MarketState),
        setPlatformFeeRecipient sender rec s = (.ok b, s') → s'.events = s.events) ∧
    (∀ (sender c bps rec : Nat) (s : MarketState) (b : Bool) (s' : MarketState),
        updateRoyalty sender c bps rec s = (.ok b, s') → s'.events = s.events) := by
  refine ⟨?_, ?_, ?_, ?_, ?_, ?_, ?_, ?_, ?_, ?_⟩
  · intro o sender c t p s id s' h
    simp only [listNFT] at h
    repeat' split at h
    all_goals first
      | (simp only [Prod.mk.injEq, Except.ok.injEq] at h
         obtain ⟨rfl, rfl⟩ := h
         simp)
      | simp_all
  · intro sender lid s b s' h
    simp only [cancelListing] at h
    repeat' split at h
    all_goals first
      | (simp only [Prod.mk.injEq, Except.ok.injEq] at h
         obtain ⟨rfl, rfl⟩ := h
         simp)
      | simp_all
  · intro o sender lid s b s' h
    simp only [buyNFT] at h
    repeat' split at h
    all_goals first
      | (simp only [Prod.mk.injEq, Except.ok.injEq] at h
         obtain ⟨rfl, rfl⟩ := h
         simp)
      | simp_all
  · intro sender c t a s id s' h
    simp only [placeBid] at h
    repeat' split at h
    all_goals first
      | (simp only [Prod.mk.injEq, Except.ok.injEq] at h
         obtain ⟨rfl, rfl⟩ := h
         simp)
      | simp_all
  · intro sender bid s b s' h
    simp only [cancelBid] at h
    repeat' split at h
    all_goals first
      | (simp only [Prod.mk.injEq, Except.ok.injEq] at h
         obtain ⟨rfl, rfl⟩ := h
         simp)
      | simp_all
  · intro o sender bid s b s' h
    simp only [acceptBid] at h
    repeat' split at h
    all_goals first
      | (simp only [Prod.mk.injEq, Except.ok.injEq] at h
         obtain ⟨rfl, rfl⟩ := h
         simp)
      | simp_all
  · intro sender c bps rec s b s' h
    simp only [registerCollection] at h
    repeat' split at h
    all_goals first
      | (simp only [Prod.mk.injEq, Except.ok.injEq] at h
         obtain ⟨rfl, rfl⟩ := h
         simp)
      | simp_all
  · intro sender bps s b s' h
    simp only [setPlatformFee] at h
    repeat' split at h
    all_goals first
      | (simp only [Prod.mk.injEq, Except.ok.injEq] at h
         obtain ⟨rfl, rfl⟩ := h
         simp)
      | simp_all
  · intro sender rec s b s' h
    simp only [setPlatformFeeRecipient] at h
    repeat' split at h
    all_goals first
      | (simp only [Prod.mk.injEq, Except.ok.injEq] at h
         obtain ⟨rfl, rfl⟩ := h
         simp)
      | simp_all
  · intro sender c bps rec s b s' h
    simp only [updateRoyalty] at h
    repeat' split at h
    all_goals first
      | (simp only [Prod.mk.injEq, Except.ok.injEq] at h
         obtain ⟨rfl, rfl⟩ := h
         simp)
      | simp_all

/-- Witness for the amended C5: the concrete `listNFT` call behind
`listedState` appends one `ListingCreated` event, and the successful
`setPlatformFee` call on `deployedState` appends none. -/
theorem events_per_successful_call_witness :
    listedState.events =
        deployedState.events ++ [Event.listingCreated 1 11 7 3 1000] ∧
      (setPlatformFee 9 100 deployedState).2.events = deployedState.events :=
  ⟨events_per_successful_call.1 (demoOracle 3) 3 11 7 1000 deployedState 1
      listedState rfl,
    (events_per_successful_call.2.2.2.2.2.2.2.1) 9 100 deployedState true
      (setPlatformFee 9 100 deployedState).2 rfl⟩

/-! ### C6: royalty and platform fee bounds -/

/-- The fee/royalty bounds of the data-model invariants: every registered
collection stores `royaltyBps ≤ 1000`, and the platform stores
`feeBps ≤ 500`. -/
def FeesInvariant (s : MarketState) : Prop :=
  (∀ c, s.collectionRegisteredMap c ≠ 0 →
    s.collectionRoyaltyBpsMap c ≤ MAX_ROYALTY_BPS) ∧
  s.platformFeeBps ≤ MAX_PLATFORM_FEE_BPS

theorem feesInvariant_listNFT (o : RemoteOracle) (sender c t p : Nat)
    (s : MarketState) (hs : FeesInvariant s) :
    FeesInvariant (listNFT o sender c t p s).2 := by
  simp only [listNFT]
  repeat' split
  all_goals exact hs

theorem feesInvariant_cancelListing (sender lid : Nat) (s : MarketState)
    (hs : FeesInvariant s) : FeesInvariant (cancelListing sender lid s).2 := by
  simp only [cancelListing]
  repeat' split
  all_goals exact hs

theorem feesInvariant_buyNFT (o : RemoteOracle) (sender lid : Nat)
    (s : MarketState) (hs : FeesInvariant s) :
    FeesInvariant (buyNFT o sender lid s).2 := by
  simp only [buyNFT]
  repeat' split
  all_goals exact hs

theorem feesInvariant_placeBid (sender c t a : Nat) (s : MarketState)
    (hs : FeesInvariant s) : FeesInvariant (placeBid sender c t a s).2 := by
  simp only [placeBid]
  repeat' split
  all_goals exact hs

theorem feesInvariant_cancelBid (sender bid : Nat) (s : MarketState)
    (hs : FeesInvariant s) : FeesInvariant (cancelBid sender bid s).2 := by
  simp only [cancelBid]
  repeat' split
  all_goals exact hs

theorem feesInvariant_acceptBid (o : RemoteOracle) (sender bid : Nat)
    (s : MarketState) (hs : FeesInvariant s) :
    FeesInvariant (acceptBid o sender bid s).2 := by
  simp only [acceptBid]
  repeat' split
  all_goals exact hs

theorem feesInvariant_registerCollection (sender c bps rec : Nat)
    (s : MarketState) (hs : FeesInvariant s) :
    FeesInvariant (registerCollection sender c bps rec s).2 := by
  simp only [registerCollection]
  repeat' split
  · exact hs
  · exact hs
  · exact hs
  · exact hs
  · refine ⟨fun c' hc' => ?_, hs.2⟩
    simp only [mapSet] at hc' ⊢
    by_cases hcc : c' = c
    · simp only [hcc, if_pos rfl]
      simp_all [MAX_ROYALTY_BPS]
    · simp only [if_neg hcc] at hc' ⊢
      exact hs.1 c' hc'

theorem feesInvariant_setPlatformFee (sender bps : Nat) (s : MarketState)
    (hs : FeesInvariant s) : FeesInvariant (setPlatformFee sender bps s).2 := by
  simp only [setPlatformFee]
  repeat' split
  · exact hs
  · exact hs
  · refine ⟨hs.1, ?_⟩
    simp_all [MAX_PLATFORM_FEE_BPS]

theorem feesInvariant_setPlatformFeeRecipient (sender rec : Nat)
    (s : MarketState) (hs : FeesInvariant s) :
    FeesInvariant (setPlatformFeeRecipient sender rec s).2 := by
  simp only [setPlatformFeeRecipient]
  repeat' split
  all_goals exact hs

theorem feesInvariant_updateRoyalty (sender c bps rec : Nat) (s : MarketState)
    (hs : FeesInvariant s) : FeesInvariant (updateRoyalty sender c bps rec s).2 := by
  simp only [updateRoyalty]
  repeat' split
  · exact hs
  · exact hs
  · exact hs
  · exact hs
  · refine ⟨fun c' hc' => ?_, hs.2⟩
    simp only [mapSet] at hc' ⊢
    by_cases hcc : c' = c
    · simp only [hcc, if_pos rfl]
      simp_all [MAX_ROYALTY_BPS]
    · simp only [if_neg hcc] at hc' ⊢
      exact hs.1 c' hc'

/-- Claim C6: deployment establishes the fee bounds, every dispatched
operation preserves them (in particular no operation other than the three
admin ones writes these fields), `registerCollection` and `updateRoyalty`
reject `royaltyBps > 1000` without state change, and `setPlatformFee`
rejects `bps > 500` without state change. -/
theorem fees_always_bounded :
    (∀ (d m fr fb : Nat) (s1 : MarketState),
      onDeployment fr fb (emptyStorage d m) = (.ok (), s1) → FeesInvariant s1) ∧
    (∀ (o : RemoteOracle) (op : Op) (s : MarketState),
      FeesInvariant s → FeesInvariant (execute o op s).2) ∧
    (∀ (sender c bps rec : Nat) (s : MarketState), MAX_ROYALTY_BPS < bps →
      isErr (registerCollection sender c bps rec s).1 = true ∧
        (registerCollection sender c bps rec s).2 = s) ∧
    (∀ (sender c bps rec : Nat) (s : MarketState), MAX_ROYALTY_BPS < bps →
      isErr (updateRoyalty sender c bps rec s).1 = true ∧
        (updateRoyalty sender c bps rec s).2 = s) ∧
    (∀ (sender bps : Nat) (s : MarketState), MAX_PLATFORM_FEE_BPS < bps →
      isErr (setPlatformFee sender bps s).1 = true ∧
        (setPlatformFee sender bps s).2 = s) := by
  refine ⟨?_, ?_, ?_, ?_, ?_⟩
  · intro d m fr fb s1 h
    simp only [onDeployment] at h
    repeat' split at h
    · simp at h
    · simp at h
    · simp only [Prod.mk.injEq] at h
      obtain ⟨-, rfl⟩ := h
      refine ⟨fun c hc => absurd rfl hc, ?_⟩
      simp_all [MAX_PLATFORM_FEE_BPS]
  · intro o op s hs
    cases op with
    | listNFT sender c t p => exact feesInvariant_listNFT o sender c t p s hs
    | cancelListing sender lid => exact feesInvariant_cancelListing sender lid s hs
    | buyNFT sender lid => exact feesInvariant_buyNFT o sender lid s hs
    | placeBid sender c t a => exact feesInvariant_placeBid sender c t a s hs
    | cancelBid sender bid => exact feesInvariant_cancelBid sender bid s hs
    | acceptBid sender bid => exact feesInvariant_acceptBid o sender bid s hs
    | registerCollection sender c bps rec =>
      exact feesInvariant_registerCollection sender c bps rec s hs
    | setPlatformFee sender bps => exact feesInvariant_setPlatformFee sender bps s hs
    | setPlatformFeeRecipient sender rec =>
      exact feesInvariant_setPlatformFeeRecipient sender rec s hs
    | updateRoyalty sender c bps rec =>
      exact feesInvariant_updateRoyalty sender c bps rec s hs
    | getListing lid => exact hs
    | getBid bid => exact hs
    | getCollectionInfo c => exact hs
    | getPlatformInfo => exact hs
  · intro sender c bps rec s hbps
    simp only [registerCollection]
    repeat' split
    all_goals simp_all [isErr, MAX_ROYALTY_BPS]
  · intro sender c bps rec s hbps
    simp only [updateRoyalty]
    repeat' split
    all_goals simp_all [isErr, MAX_ROYALTY_BPS]
  · intro sender bps s hbps
    simp only [setPlatformFee]
    repeat' split
    all_goals simp_all [isErr, MAX_PLATFORM_FEE_BPS]

/-- Witness for C6: the fee bounds hold after deployment and after the
deployer lowers the platform fee to `100` bps. -/
theorem fees_always_bounded_witness :
    FeesInvariant (execute (demoOracle 3) (Op.setPlatformFee 9 100) deployedState).2 :=
  fees_always_bounded.2.1 (demoOracle 3) (Op.setPlatformFee 9 100) deployedState
    ⟨fun _ hc => absurd rfl hc, by decide⟩

/-! ### C4: deactivation is terminal -/

/-- Claim C4: once a valid listing (resp. bid) id has its active flag at
`INACTIVE`, no dispatched operation ever makes it active again — the id
stays in range and its flag stays `INACTIVE`; consequently cancelling the
same listing (resp. bid) twice succeeds the first time and fails with the
`Inactive` error the second time, whoever the second caller is. -/
theorem inactive_is_terminal :
    (∀ (o : RemoteOracle) (op : Op) (s : MarketState) (lid : Nat),
      lid < s.nextListingId → s.listingActiveMap lid = INACTIVE →
      lid < (execute o op s).2.nextListingId ∧
        (execute o op s).2.listingActiveMap lid = INACTIVE) ∧
    (∀ (o : RemoteOracle) (op : Op) (s : MarketState) (bid : Nat),
      bid < s.nextBidId → s.bidActiveMap bid = INACTIVE →
      bid < (execute o op s).2.nextBidId ∧
        (execute o op s).2.bidActiveMap bid = INACTIVE) ∧
    (∀ (sender sender2 lid : Nat) (s : MarketState) (b : Bool) (s1 : MarketState),
      cancelListing sender lid s = (.ok b, s1) →
      (cancelListing sender2 lid s1).1 = .error (.revert "Listing is not active")) ∧
    (∀ (sender sender2 bid : Nat) (s : MarketState) (b : Bool) (s1 : MarketState),
      cancelBid sender bid s = (.ok b, s1) →
      (cancelBid sender2 bid s1).1 = .error (.revert "Bid is not active")) := by
  refine ⟨?_, ?_, ?_, ?_⟩
  · intro o op s lid h1 h2
    cases op
    all_goals
      simp only [execute, listNFT, cancelListing, buyNFT, placeBid, cancelBid,
        acceptBid, registerCollection, setPlatformFee, setPlatformFeeRecipient,
        updateRoyalty, getListing, getBid, getCollectionInfo, getPlatformInfo]
    all_goals repeat' split
    all_goals refine ⟨?_, ?_⟩
    all_goals simp_all [mapSet, SafeMath_add_eq_ok, INACTIVE, ACTIVE]
    all_goals omega
  · intro o op s bid h1 h2
    cases op
    all_goals
      simp only [execute, listNFT, cancelListing, buyNFT, placeBid, cancelBid,
        acceptBid, registerCollection, setPlatformFee, setPlatformFeeRecipient,
        updateRoyalty, getListing, getBid, getCollectionInfo, getPlatformInfo]
    all_goals repeat' split
    all_goals refine ⟨?_, ?_⟩
    all_goals simp_all [mapSet, SafeMath_add_eq_ok, INACTIVE, ACTIVE]
    all_goals omega
  · intro sender sender2 lid s b s1 h
    simp only [cancelListing] at h
    split at h
    · simp at h
    next heq =>
      split at h
      · simp at h
      · simp only [Prod.mk.injEq, Except.ok.injEq] at h
        obtain ⟨-, rfl⟩ := h
        rw [requireActiveListing_eq_ok] at heq
        have hreq : requireActiveListing
            { s with listingActiveMap := mapSet s.listingActiveMap lid INACTIVE,
                     events := s.events ++ [Event.listingCancelled lid] } lid =
            .error (.revert "Listing is not active") := by
          unfold requireActiveListing
          rw [if_neg (by simp; omega), if_pos (by simp [mapSet])]
        simp only [cancelListing, hreq]
  · intro sender sender2 bid s b s1 h
    simp only [cancelBid] at h
    split at h
    · simp at h
    next heq =>
      split at h
      · simp at h
      · simp only [Prod.mk.injEq, Except.ok.injEq] at h
        obtain ⟨-, rfl⟩ := h
        rw [requireActiveBid_eq_ok] at heq
        have hreq : requireActiveBid
            { s with bidActiveMap := mapSet s.bidActiveMap bid INACTIVE,
                     events := s.events ++ [Event.bidCancelled bid] } bid =
            .error (.revert "Bid is not active") := by
          unfold requireActiveBid
          rw [if_neg (by simp; omega), if_pos (by simp [mapSet])]
        simp only [cancelBid, hreq]

/-- Witness for C4: cancelling listing `1` of `listedState` as seller `3`
succeeds; a second cancel of the same id (by anyone, here `3` again) fails
with the `Inactive` error. -/
theorem inactive_is_terminal_witness :
    (cancelListing 3 1 (cancelListing 3 1 listedState).2).1 =
      .error (.revert "Listing is not active") :=
  inactive_is_terminal.2.2.1 3 3 1 listedState true
    (cancelListing 3 1 listedState).2 rfl

/-! ### C9: totalVolume accumulates exactly the settlement values -/

/-- A trade: a `buyNFT` call or an `acceptBid` call. -/
inductive Trade where
  | buy (sender listingId : Nat)
  | accept (sender bidId : Nat)

/-- Run one trade. -/
def runTrade (o : RemoteOracle) (t : Trade) (s : MarketState) :
    Except Err Bool × MarketState :=
  match t with
  | .buy sender lid => buyNFT o sender lid s
  | .accept sender bid => acceptBid o sender bid s

/-- The settlement value of a trade in state `s`: the listing's price for
a purchase, the bid's amount for an acceptance. -/
def settlement (s : MarketState) : Trade → Nat
  | .buy _ lid => s.listingPriceMap lid
  | .accept _ bid => s.bidAmountMap bid

/-- `TradeSeq o s vs s'`: from `s`, a sequence of successful trades with
settlement values `vs` (in order) leads to `s'`. -/
inductive TradeSeq (o : RemoteOracle) : MarketState → List Nat → MarketState → Prop where
  | nil (s : MarketState) : TradeSeq o s [] s
  | cons (t : Trade) (s s1 s2 : MarketState) (vs : List Nat) (b : Bool) :
      runTrade o t s = (.ok b, s1) → TradeSeq o s1 vs s2 →
      TradeSeq o s (settlement s t :: vs) s2

theorem runTrade_ok_totalVolume (o : RemoteOracle) (t : Trade) (s : MarketState)
    (b : Bool) (s1 : MarketState) (h : runTrade o t s = (.ok b, s1)) :
    s1.totalVolume = s.totalVolume + settlement s t ∧
      s.totalVolume + settlement s t < U256LIMIT := by
  cases t with
  | buy sender lid =>
    simp only [runTrade, buyNFT, settlement] at h ⊢
    repeat' split at h
    all_goals first
      | (simp only [Prod.mk.injEq, Except.ok.injEq] at h
         obtain ⟨rfl, rfl⟩ := h
         simp_all [SafeMath_add_eq_ok])
      | simp_all
  | accept sender bid =>
    simp only [runTrade, acceptBid, settlement] at h ⊢
    repeat' split at h
    all_goals first
      | (simp only [Prod.mk.injEq, Except.ok.injEq] at h
         obtain ⟨rfl, rfl⟩ := h
         simp_all [SafeMath_add_eq_ok])
      | simp_all

/-- Claim C9: a sequence of `N` successful trades adds exactly the sum of
the `N` settlement values to `totalVolume`, each trade adding exactly its
settlement value with the checked `u256` addition in bounds; when the
addition would overflow, `buyNFT` / `acceptBid` fail with the overflow
revert instead of wrapping or saturating. -/
theorem totalVolume_sums_settlements :
    (∀ (o : RemoteOracle) (s : MarketState) (vs : List Nat) (s' : MarketState),
      TradeSeq o s vs s' → s'.totalVolume = s.totalVolume + vs.sum) ∧
    (∀ (o : RemoteOracle) (t : Trade) (s : MarketState) (b : Bool) (s1 : MarketState),
      runTrade o t s = (.ok b, s1) →
      s1.totalVolume = s.totalVolume + settlement s t ∧
        s.totalVolume + settlement s t < U256LIMIT) ∧
    (∀ (o : RemoteOracle) (sender lid : Nat) (s : MarketState),
      requireActiveListing s lid = .ok () →
      sender ≠ s.listingSellerMap lid →
      U256LIMIT ≤ s.totalVolume + s.listingPriceMap lid →
      (buyNFT o sender lid s).1 = .error (.revert "SafeMath: addition overflow")) ∧
    (∀ (o : RemoteOracle) (sender bid : Nat) (s : MarketState),
      requireActiveBid s bid = .ok () →
      verifyOwnership o (s.bidCollectionMap bid) (s.bidTokenIdMap bid) sender = .ok () →
      U256LIMIT ≤ s.totalVolume + s.bidAmountMap bid →
      (acceptBid o sender bid s).1 = .error (.revert "SafeMath: addition overflow")) := by
  refine ⟨?_, fun o t s b s1 h => runTrade_ok_totalVolume o t s b s1 h, ?_, ?_⟩
  · intro o s vs s' hrun
    induction hrun with
    | nil s => simp
    | cons t s s1 s2 vs b hstep hrest ih =>
      have hv := runTrade_ok_totalVolume o t s b s1 hstep
      simp only [List.sum_cons]
      omega
  · intro o sender lid s hact hne hov
    have hnlt : ¬ (s.totalVolume + s.listingPriceMap lid < U256LIMIT) := by omega
    unfold buyNFT
    rw [hact]
    simp [hne, SafeMath_add, hnlt]
  · intro o sender bid s hact hown hov
    have hnlt : ¬ (s.totalVolume + s.bidAmountMap bid < U256LIMIT) := by omega
    unfold acceptBid
    rw [hact]
    simp only []
    rw [hown]
    simp [SafeMath_add, hnlt]

/-- Witness for C9: buyer `4` buying listing `1` of `listedState` raises
`totalVolume` by exactly the settlement sum `[1000].sum`. -/
theorem totalVolume_sums_settlements_witness :
    (buyNFT (demoOracle 3) 4 1 listedState).2.totalVolume =
      listedState.totalVolume + [1000].sum :=
  totalVolume_sums_settlements.1 (demoOracle 3) listedState [1000]
    (buyNFT (demoOracle 3) 4 1 listedState).2
    (TradeSeq.cons (Trade.buy 4 1) listedState
      (buyNFT (demoOracle 3) 4 1 listedState).2
      (buyNFT (demoOracle 3) 4 1 listedState).2 [] true rfl
      (TradeSeq.nil (buyNFT (demoOracle 3) 4 1 listedState).2))

end NFTMarketplace
